import Mathlib

/-!
Shallow embedding of the fault-injection orchestration script:
`src/register.py` (template registry loading) and `src/fault_engine.py`
(request normalization and backend dispatch), together with the spec's
lifecycle revert operation, which has no counterpart in the source.

Python dictionaries are embedded as association lists with last-write
semantics; the mutable heap of metadata dictionaries is embedded as a store
indexed by natural numbers, so that the in-place mutation performed by
`router` and the aliasing of the caller's dictionary are observable.
External collaborators (the Jinja2 rendering engine, the `kubectl`
subprocess) are embedded as an opaque rendering function and an effect
trace, respectively, following the spec's treatment of them as capability
interfaces.
-/

set_option autoImplicit false

namespace FaultOrch

/-- A Python value stored in a `dict[str, str]` cell: either a string or
`None` (embedded as `Option.none`). -/
abbrev Val := Option String

/-- Embedding of a Python `dict` with string keys: an association list in
which each key occurs at most once in well-formed use. -/
abbrev Dict (α : Type) := List (String × α)

/-- Embedding of Python `d[k] = v`: replace the binding if the key is
present, otherwise append it at the end (insertion order preserved). -/
def dset {α : Type} : Dict α → String → α → Dict α
  | [], k, v => [(k, v)]
  | (k₀, v₀) :: rest, k, v =>
    if k₀ = k then (k, v) :: rest else (k₀, v₀) :: dset rest k v

/-- Embedding of Python `d[k]` lookup: the value bound to the first (in
well-formed use, only) occurrence of the key, or `none` when absent. -/
def dget {α : Type} : Dict α → String → Option α
  | [], _ => none
  | (k₀, v₀) :: rest, k => if k₀ = k then some v₀ else dget rest k

/-- Embedding of Python `d.get(k)` on a `dict[str, str]` that may store
`None`: returns `none` both when the key is absent and when it is bound to
`None`, exactly as `dict.get` does. -/
def pyGet (d : Dict Val) (k : String) : Val :=
  (dget d k).getD none

/-! ### src/register.py -/

/-- Embedding of the dataclass `TemplateMeta` from `src/register.py`: the
`backend` field is an arbitrary string, because the `Literal` annotation on
the Python field is documentation only and is not enforced at runtime. -/
structure TemplateMeta where
  templateID : String
  backend : String
  template_path : String
deriving DecidableEq, Repr

/-- One entry of the `templates` list of the parsed `index.yaml` document,
carrying the three keys `load_registry` reads: `templateID`, `backend`,
`path`. -/
structure TemplateItem where
  templateID : String
  backend : String
  path : String
deriving DecidableEq, Repr

/-- The parsed `index.yaml` document, restricted to the one key
`load_registry` reads: `templates` is `none` when the parsed mapping has no
`"templates"` key, so that `data.get("templates", [])` is embedded as
`templates.getD []`. -/
structure IndexDoc where
  templates : Option (List TemplateItem)
deriving DecidableEq, Repr

/-- The `TemplateMeta` that `load_registry` builds from one entry. -/
def toMeta (item : TemplateItem) : TemplateMeta :=
  { templateID := item.templateID
  , backend := item.backend
  , template_path := item.path }

/-- Embedding of `Dict[str, TemplateMeta]`. -/
abbrev Registry := Dict TemplateMeta

/-- Embedding of `load_registry` from `src/register.py`: iterate over
`data.get("templates", [])`, build a `TemplateMeta` from each entry and
assign it into the registry dictionary under its `templateID`. -/
def load_registry (doc : IndexDoc) : Registry :=
  (doc.templates.getD []).foldl
    (fun registry item => dset registry item.templateID (toMeta item)) []

/-! ### src/fault_engine.py -/

/-- An observable side effect of `inject`: running an external process with
the given argument vector and standard input, embedding
`subprocess.run(["kubectl", "apply", "-f", "-"], input=rendered_yaml,
check=True)`. -/
inductive Effect where
  | exec (argv : List String) (stdin : String)
deriving DecidableEq, Repr

/-- A Python exception escaping the embedded code: `KeyError`, raised by
`TEMPLATE_REGISTRY[request.templateID]` when the key is absent — the
not-found failure of the registry mapping. -/
inductive PyErr where
  | keyError (key : String)
deriving DecidableEq, Repr

/-- The heap of metadata dictionaries: Python dictionaries are mutable
objects passed by reference, so a `dict` argument is embedded as an address
into this store. -/
abbrev Store := Nat → Dict Val

/-- Point update of the heap: mutate the dictionary object at address `r`. -/
def storeSet (s : Store) (r : Nat) (d : Dict Val) : Store :=
  fun r₀ => if r₀ = r then d else s r₀

/-- Embedding of the dataclass `FaultRequest` from `src/fault_engine.py`:
`metadata` is the address of the shared, mutable metadata dictionary, and
`spec` is opaque (`dict[str, Any]` in the source), embedded as a value of
an arbitrary type `σ`. -/
structure FaultRequest (σ : Type) where
  templateID : String
  metadata : Nat
  spec : σ
deriving DecidableEq, Repr

/-- The module-level state the engine functions touch: the global
`TEMPLATE_REGISTRY` built by `load_registry` at import time, and the heap
of metadata dictionaries. -/
structure EngineState where
  registry : Registry
  store : Store

/-- The external rendering collaborator: given a template path (relative to
`EXPERIMENTS_DIR`), the metadata dictionary and the spec, produce the
rendered manifest text. This stands for the Jinja2 `Environment` with its
`FileSystemLoader` and `to_yaml` filter, which the spec treats as an
opaque capability interface. -/
abbrev RenderFn (σ : Type) := String → Dict Val → σ → String

/-- The first statement of `router`:
`if metadata.get("name") is None:
metadata["name"] = f"{templateID.replace('/', '-')}-instance"`. -/
def defaultName (templateID : String) (d : Dict Val) : Dict Val :=
  if pyGet d "name" = none then
    dset d "name" (some ((templateID.replace "/" "-") ++ "-instance"))
  else d

/-- The second statement of `router`:
`if metadata.get("namespace") is None:
metadata["namespace"] = "chaos-testing"`. -/
def defaultNamespace (d : Dict Val) : Dict Val :=
  if pyGet d "namespace" = none then
    dset d "namespace" (some "chaos-testing")
  else d

/-- Embedding of `router` from `src/fault_engine.py`: default a
missing-or-`None` `"name"` to `f"{templateID.replace('/', '-')}-instance"`
and a missing-or-`None` `"namespace"` to `"chaos-testing"`, mutating the
caller's metadata dictionary in place, and return a `FaultRequest` holding
the same dictionary address. -/
def router {σ : Type} (s : EngineState) (templateID : String)
    (metadata : Nat) (spec : σ) : EngineState × FaultRequest σ :=
  let store₁ :=
    storeSet s.store metadata
      (defaultNamespace (defaultName templateID (s.store metadata)))
  ({ s with store := store₁ },
   { templateID := templateID, metadata := metadata, spec := spec })

/-- Embedding of `inject` from `src/fault_engine.py`: look the template up
in `TEMPLATE_REGISTRY` (a missing key raises `KeyError`); for the
`"chaos-mesh"` backend render the template file at `template_path` with the
request's metadata and spec and submit the result to
`kubectl apply -f -`; the `"chaosd"` and `"custom"` branches do nothing,
and any other backend string falls through all branches; every non-raising
path returns `None` (embedded as `Except.ok ()`). -/
def inject {σ : Type} (render : RenderFn σ) (s : EngineState)
    (request : FaultRequest σ) :
    EngineState × List Effect × Except PyErr Unit :=
  match dget s.registry request.templateID with
  | none => (s, [], Except.error (PyErr.keyError request.templateID))
  | some template =>
    if template.backend = "chaos-mesh" then
      let rendered_yaml :=
        render template.template_path (s.store request.metadata) request.spec
      (s, [Effect.exec ["kubectl", "apply", "-f", "-"] rendered_yaml],
       Except.ok ())
    else if template.backend = "chaosd" then
      (s, [], Except.ok ())
    else if template.backend = "custom" then
      (s, [], Except.ok ())
    else
      (s, [], Except.ok ())

/-! ### Lifecycle revert, from the spec -/

/-- Lifecycle states of a fault instance, from the spec's state machine
(§4.4); `FAILED` is the spec's terminal-but-retryable failure state. -/
inductive FaultState where
  | PENDING
  | ACTIVE
  | REVERTING
  | REVERTED
  | FAILED
  | REJECTED
deriving DecidableEq, Repr

/-- Result of a revert call: `REVERTED` (success) or `failed`. -/
inductive RevertResult where
  | REVERTED
  | failed
deriving DecidableEq, Repr

/-- Modelled from the spec: the source contains no revert operation (the
script's only lifecycle verb is `inject`), so the revert contract of spec
§4.3–§4.4 is modelled from the spec's words: a best-effort undo that
drives `ACTIVE`/`REVERTING` (and, on retry, `FAILED`) to `REVERTED` when
the backend undo succeeds (`backendOk`) and to `FAILED` when it does not;
reverting an already-`REVERTED` instance, or one whose fault was never
applied (`PENDING`, `REJECTED`), returns success without consulting the
backend, since cleanup paths may run more than once during recovery. -/
def revert (backendOk : Bool) : FaultState → FaultState × RevertResult
  | FaultState.ACTIVE =>
    if backendOk then (FaultState.REVERTED, RevertResult.REVERTED)
    else (FaultState.FAILED, RevertResult.failed)
  | FaultState.REVERTING =>
    if backendOk then (FaultState.REVERTED, RevertResult.REVERTED)
    else (FaultState.FAILED, RevertResult.failed)
  | FaultState.FAILED =>
    if backendOk then (FaultState.REVERTED, RevertResult.REVERTED)
    else (FaultState.FAILED, RevertResult.failed)
  | FaultState.REVERTED => (FaultState.REVERTED, RevertResult.REVERTED)
  | FaultState.PENDING => (FaultState.REVERTED, RevertResult.REVERTED)
  | FaultState.REJECTED => (FaultState.REJECTED, RevertResult.REVERTED)

/-! ### Dictionary lemmas -/

theorem dget_dset_self {α : Type} (d : Dict α) (k : String) (v : α) :
    dget (dset d k v) k = some v := by
  induction d with
  | nil => simp [dset, dget]
  | cons hd tl ih =>
    obtain ⟨k₀, v₀⟩ := hd
    by_cases h : k₀ = k <;> simp [dset, dget, h, ih]

theorem dget_dset_other {α : Type} (d : Dict α) (k k₀ : String) (v : α)
    (h : k₀ ≠ k) : dget (dset d k₀ v) k = dget d k := by
  induction d with
  | nil => simp [dset, dget, h]
  | cons hd tl ih =>
    obtain ⟨k₁, v₁⟩ := hd
    by_cases h₁ : k₁ = k₀
    · subst h₁; simp [dset, dget, h]
    · simp [dset, dget, h₁]
      by_cases h₂ : k₁ = k <;> simp [h₂, ih]

theorem pyGet_dset_self (d : Dict Val) (k : String) (v : Val) :
    pyGet (dset d k v) k = v := by
  rw [pyGet, dget_dset_self]
  rfl

theorem pyGet_dset_other (d : Dict Val) (k k₀ : String) (v : Val)
    (h : k₀ ≠ k) : pyGet (dset d k₀ v) k = pyGet d k := by
  rw [pyGet, dget_dset_other _ _ _ _ h]
  rfl

theorem dget_defaultName_other (templateID : String) (d : Dict Val)
    (k : String) (hk : k ≠ "name") :
    dget (defaultName templateID d) k = dget d k := by
  unfold defaultName
  split
  · exact dget_dset_other _ _ _ _ (Ne.symm hk)
  · rfl

theorem dget_defaultNamespace_other (d : Dict Val) (k : String)
    (hk : k ≠ "namespace") :
    dget (defaultNamespace d) k = dget d k := by
  unfold defaultNamespace
  split
  · exact dget_dset_other _ _ _ _ (Ne.symm hk)
  · rfl

theorem pyGet_defaultName_other (templateID : String) (d : Dict Val)
    (k : String) (hk : k ≠ "name") :
    pyGet (defaultName templateID d) k = pyGet d k := by
  rw [pyGet, dget_defaultName_other _ _ _ hk]
  rfl

theorem pyGet_defaultNamespace_other (d : Dict Val) (k : String)
    (hk : k ≠ "namespace") :
    pyGet (defaultNamespace d) k = pyGet d k := by
  rw [pyGet, dget_defaultNamespace_other _ _ hk]
  rfl

theorem pyGet_defaultName_missing (templateID : String) (d : Dict Val)
    (h : pyGet d "name" = none) :
    pyGet (defaultName templateID d) "name" =
      some ((templateID.replace "/" "-") ++ "-instance") := by
  rw [defaultName, if_pos h, pyGet_dset_self]

theorem pyGet_defaultNamespace_missing (d : Dict Val)
    (h : pyGet d "namespace" = none) :
    pyGet (defaultNamespace d) "namespace" = some "chaos-testing" := by
  rw [defaultNamespace, if_pos h, pyGet_dset_self]

theorem find?_eq_head?_filter {α : Type} (p : α → Bool) (l : List α) :
    l.find? p = (l.filter p).head? := by
  induction l with
  | nil => rfl
  | cons a l ih =>
    cases h : p a with
    | true => rw [List.find?_cons_of_pos _ h, List.filter_cons_of_pos h]; rfl
    | false =>
      have h' : ¬ p a = true := by simp [h]
      rw [List.find?_cons_of_neg _ h', List.filter_cons_of_neg h', ih]

/-- The registry produced by `load_registry` binds each key to the metadata
of the last entry with that `templateID`, and binds nothing else. -/
theorem dget_load_registry (doc : IndexDoc) (id : String) :
    dget (load_registry doc) id =
      (((doc.templates.getD []).filter
          (fun item => item.templateID = id)).getLast?).map toMeta := by
  have aux : ∀ (items : List TemplateItem) (reg : Registry),
      dget (items.foldl
        (fun registry item => dset registry item.templateID (toMeta item)) reg) id =
      (((items.reverse.find? (fun item => item.templateID = id))).map toMeta).or
        (dget reg id) := by
    intro items
    induction items with
    | nil => intro reg; simp
    | cons item rest ih =>
      intro reg
      simp only [List.foldl_cons, List.reverse_cons, List.find?_append]
      rw [ih]
      cases hfind : rest.reverse.find? (fun item => item.templateID = id) with
      | some j => simp [hfind]
      | none =>
        simp only [hfind, Option.map_none, Option.none_or, Option.none_orElse]
        by_cases h : item.templateID = id
        · subst h; simp [List.find?, dget_dset_self]
        · simp [List.find?, h, dget_dset_other _ _ _ _ h]
  rw [load_registry, aux]
  simp only [dget, Option.or_none]
  rw [find?_eq_head?_filter, List.filter_reverse, List.head?_reverse]

/-! ### Claims -/

/-- Claim C1: for every `FaultRequest` whose `templateID` resolves to a
template with backend `"chaos-mesh"`, `inject` looks the template up in the
registry, renders the template file referenced by its `template_path` with
the request's metadata and spec as the rendering context, submits the
rendered manifest to `kubectl apply -f -`, and returns `None` on
success. -/
theorem C1_inject_chaos_mesh {σ : Type} (render : RenderFn σ)
    (s : EngineState) (request : FaultRequest σ) (template : TemplateMeta)
    (hlook : dget s.registry request.templateID = some template)
    (hbackend : template.backend = "chaos-mesh") :
    inject render s request =
      (s,
       [Effect.exec ["kubectl", "apply", "-f", "-"]
         (render template.template_path (s.store request.metadata) request.spec)],
       Except.ok ()) := by
  simp [inject, hlook, hbackend]

theorem C1_witness :
    inject (fun path _ _ => String.append "rendered:" path)
      ⟨[("cpu_throttling", ⟨"cpu_throttling", "chaos-mesh", "cpu.yaml.j2"⟩)],
        fun _ => []⟩
      ⟨"cpu_throttling", 0, (7 : Nat)⟩ =
      (⟨[("cpu_throttling", ⟨"cpu_throttling", "chaos-mesh", "cpu.yaml.j2"⟩)],
         fun _ => []⟩,
       [Effect.exec ["kubectl", "apply", "-f", "-"] "rendered:cpu.yaml.j2"],
       Except.ok ()) := by
  exact C1_inject_chaos_mesh (fun path _ _ => String.append "rendered:" path)
    ⟨[("cpu_throttling", ⟨"cpu_throttling", "chaos-mesh", "cpu.yaml.j2"⟩)],
      fun _ => []⟩
    ⟨"cpu_throttling", 0, (7 : Nat)⟩
    ⟨"cpu_throttling", "chaos-mesh", "cpu.yaml.j2"⟩ (by decide) rfl

/-- Claim C2 (code bug at the spec's required behavior): at a request whose
resolved template declares the unsupported backend `"chaosd"`, `inject`
performs no operation and returns `None` — an empty effect trace and a
plain success, carrying no distinguishable `Unsupported` marker — i.e. the
silent-success behavior the spec forbids. -/
theorem C2_chaosd_silently_succeeds :
    inject (fun _ _ _ => "")
      ⟨[("disk_fill", ⟨"disk_fill", "chaosd", "disk.yaml.j2"⟩)], fun _ => []⟩
      ⟨"disk_fill", 0, (0 : Nat)⟩ =
      (⟨[("disk_fill", ⟨"disk_fill", "chaosd", "disk.yaml.j2"⟩)], fun _ => []⟩,
       [], Except.ok ()) := by
  rfl

/-- Claim C3: for every `templateID` absent from the registry, the lookup
`TEMPLATE_REGISTRY[request.templateID]` performed by `inject` fails with
the mapping's not-found error (`KeyError`), and no fault is applied: the
effect trace is empty. -/
theorem C3_absent_template_not_found {σ : Type} (render : RenderFn σ)
    (s : EngineState) (request : FaultRequest σ)
    (hlook : dget s.registry request.templateID = none) :
    inject render s request =
      (s, [], Except.error (PyErr.keyError request.templateID)) := by
  simp [inject, hlook]

theorem C3_witness :
    inject (fun _ _ _ => "") ⟨[], fun _ => []⟩ ⟨"missing", 0, (0 : Nat)⟩ =
      (⟨[], fun _ => []⟩, [], Except.error (PyErr.keyError "missing")) := by
  exact C3_absent_template_not_found _ _ _ rfl

/-- Claim C4 counterexample: loading an index whose single entry declares
the unknown backend kind `"bogus"` does not fail: `load_registry` returns a
registry containing the offending entry, so no `InvalidTemplate` (nor any
other load-time validation failure) occurs. -/
theorem C4_counterexample :
    load_registry ⟨some [⟨"t", "bogus", "p"⟩]⟩ = [("t", ⟨"t", "bogus", "p"⟩)] := by
  rfl

/-- Claim C4 (amended): registry loading performs no load-time validation:
an entry with an arbitrary — in particular unknown — backend kind is
accepted into the registry without error, and no `InvalidTemplate` error
path exists in `load_registry`. -/
theorem C4_no_load_time_validation (id backend path : String) :
    load_registry ⟨some [⟨id, backend, path⟩]⟩ = [(id, ⟨id, backend, path⟩)] := by
  rfl

/-- Claim C5 counterexample: in an index listing two entries with the same
`templateID` `"a"` but different backends and paths, the first entry is
listed under `templates`, yet the returned registry does not map `"a"` to
that entry's backend tag and template path. -/
theorem C5_counterexample :
    (⟨"a", "chaos-mesh", "p1"⟩ : TemplateItem) ∈
        ((⟨some [⟨"a", "chaos-mesh", "p1"⟩, ⟨"a", "chaosd", "p2"⟩]⟩ :
            IndexDoc).templates.getD []) ∧
      dget (load_registry
          ⟨some [⟨"a", "chaos-mesh", "p1"⟩, ⟨"a", "chaosd", "p2"⟩]⟩) "a" ≠
        some (toMeta ⟨"a", "chaos-mesh", "p1"⟩) := by
  decide

/-- Claim C5 (amended): for every entry listed under `templates` that is
the last entry bearing its `templateID` — in particular, for every entry
when the listed `templateID`s are pairwise distinct — the returned registry
maps that entry's `templateID` to a template record carrying that entry's
backend tag and template path. -/
theorem C5_load_registry_maps_entries (doc : IndexDoc) (entry : TemplateItem)
    (hlast : ((doc.templates.getD []).filter
        (fun item => item.templateID = entry.templateID)).getLast? = some entry) :
    dget (load_registry doc) entry.templateID = some (toMeta entry) := by
  rw [dget_load_registry, hlast]
  rfl

theorem C5_witness :
    dget (load_registry ⟨some [⟨"a", "chaos-mesh", "p1"⟩]⟩) "a" =
      some ⟨"a", "chaos-mesh", "p1"⟩ := by
  exact C5_load_registry_maps_entries ⟨some [⟨"a", "chaos-mesh", "p1"⟩]⟩
    ⟨"a", "chaos-mesh", "p1"⟩ (by decide)

/-- Claim C6: fault templates are immutable once loaded: `router` and
`inject` leave the registry component of the engine state — and with it
every template record it contains — unchanged; no engine operation
reassigns it, so it changes only by rebuilding it with `load_registry`. -/
theorem C6_registry_immutable {σ : Type} (s : EngineState)
    (templateID : String) (metadata : Nat) (spec : σ) (render : RenderFn σ)
    (request : FaultRequest σ) :
    (router s templateID metadata spec).1.registry = s.registry ∧
      (inject render s request).1.registry = s.registry := by
  constructor
  · rfl
  · unfold inject
    cases dget s.registry request.templateID with
    | none => rfl
    | some template =>
      by_cases h₁ : template.backend = "chaos-mesh"
      · simp [h₁]
      · by_cases h₂ : template.backend = "chaosd"
        · simp [h₁, h₂]
        · by_cases h₃ : template.backend = "custom" <;> simp [h₁, h₂, h₃]

/-- Claim C7 (modelled from the spec, see `revert`): revert is idempotent:
a revert whose backend undo succeeds (or is not needed, the instance being
already reverted or never applied) returns `REVERTED`, and calling
`revert` again on the resulting instance state returns `REVERTED` again —
with no error on the second call, whatever the backend does then. -/
theorem C7_revert_idempotent (st : FaultState) (backendOk : Bool) :
    (revert true st).2 = RevertResult.REVERTED ∧
      (revert backendOk (revert true st).1).2 = RevertResult.REVERTED := by
  cases st <;> cases backendOk <;> simp [revert]

/-- Claim C8: `router` defaults a missing-or-`None` `"name"` to the
`templateID` with every `"/"` replaced by `"-"` followed by `"-instance"`,
defaults a missing-or-`None` `"namespace"` to `"chaos-testing"`, leaves
every other metadata key — and the spec — untouched, writes the defaults
into the caller-supplied metadata dictionary itself (the same heap
address), leaves every other heap object alone, and returns a
`FaultRequest` aliasing that same dictionary. -/
theorem C8_router_normalizes {σ : Type} (s : EngineState)
    (templateID : String) (metadata : Nat) (spec : σ) :
    (router s templateID metadata spec).2 =
        { templateID := templateID, metadata := metadata, spec := spec } ∧
      (pyGet (s.store metadata) "name" = none →
        pyGet ((router s templateID metadata spec).1.store metadata) "name" =
          some ((templateID.replace "/" "-") ++ "-instance")) ∧
      (pyGet (s.store metadata) "namespace" = none →
        pyGet ((router s templateID metadata spec).1.store metadata) "namespace" =
          some "chaos-testing") ∧
      (∀ k, k ≠ "name" → k ≠ "namespace" →
        dget ((router s templateID metadata spec).1.store metadata) k =
          dget (s.store metadata) k) ∧
      (∀ r, r ≠ metadata →
        (router s templateID metadata spec).1.store r = s.store r) := by
  have hns : ("namespace" : String) ≠ "name" := by decide
  have hstore : (router s templateID metadata spec).1.store metadata =
      defaultNamespace (defaultName templateID (s.store metadata)) := by
    simp [router, storeSet]
  refine ⟨rfl, ?_, ?_, ?_, ?_⟩
  · intro hname
    rw [hstore, pyGet_defaultNamespace_other _ _ (by decide),
      pyGet_defaultName_missing _ _ hname]
  · intro hnamespace
    rw [hstore]
    apply pyGet_defaultNamespace_missing
    by_cases hname : pyGet (s.store metadata) "name" = none
    · rw [defaultName, if_pos hname, pyGet_dset_other _ _ _ _ hns.symm]
      exact hnamespace
    · rw [defaultName, if_neg hname]
      exact hnamespace
  · intro k hk₁ hk₂
    rw [hstore, dget_defaultNamespace_other _ _ hk₂,
      dget_defaultName_other _ _ _ hk₁]
  · intro r hr
    simp [router, storeSet, hr]

theorem C8_witness :
    (router ⟨[], fun _ => []⟩ "net/delay" 0 (0 : Nat)).2 =
        ⟨"net/delay", 0, (0 : Nat)⟩ ∧
      pyGet ((router ⟨[], fun _ => []⟩ "net/delay" 0 (0 : Nat)).1.store 0) "name" =
        some (("net/delay".replace "/" "-") ++ "-instance") ∧
      pyGet ((router ⟨[], fun _ => []⟩ "net/delay" 0 (0 : Nat)).1.store 0)
          "namespace" = some "chaos-testing" := by
  refine ⟨(C8_router_normalizes ⟨[], fun _ => []⟩ "net/delay" 0 (0 : Nat)).1,
    (C8_router_normalizes ⟨[], fun _ => []⟩ "net/delay" 0 (0 : Nat)).2.1 rfl,
    (C8_router_normalizes ⟨[], fun _ => []⟩ "net/delay" 0 (0 : Nat)).2.2.1 rfl⟩

/-- Claim C9: when the index document lists two or more entries with the
same `templateID`, `load_registry` raises no error: it returns a registry
binding that `templateID` to the metadata of the last such entry
(last-writer-wins); the earlier duplicates are silently discarded. -/
theorem C9_duplicates_last_writer_wins (doc : IndexDoc) (id : String)
    (hdup : 2 ≤ ((doc.templates.getD []).filter
        (fun item => item.templateID = id)).length) :
    (((doc.templates.getD []).filter
        (fun item => item.templateID = id)).getLast?).isSome = true ∧
      dget (load_registry doc) id =
        (((doc.templates.getD []).filter
            (fun item => item.templateID = id)).getLast?).map toMeta := by
  refine ⟨?_, dget_load_registry doc id⟩
  rw [List.getLast?_isSome]
  intro hnil
  rw [hnil] at hdup
  simp at hdup

theorem C9_witness :
    dget (load_registry ⟨some [⟨"a", "chaos-mesh", "p1"⟩, ⟨"a", "chaosd", "p2"⟩]⟩)
        "a" = some ⟨"a", "chaosd", "p2"⟩ := by
  have h := C9_duplicates_last_writer_wins
    ⟨some [⟨"a", "chaos-mesh", "p1"⟩, ⟨"a", "chaosd", "p2"⟩]⟩ "a" (by decide)
  rw [h.2]
  decide

/-- Claim C10: when the parsed index document is a mapping with no
`"templates"` key, `load_registry` does not fail: it returns the empty
registry, so every subsequent template lookup is a miss. -/
theorem C10_missing_templates_key (doc : IndexDoc)
    (h : doc.templates = none) :
    load_registry doc = [] ∧ ∀ id, dget (load_registry doc) id = none := by
  obtain ⟨t⟩ := doc
  cases h
  exact ⟨rfl, fun _ => rfl⟩

theorem C10_witness :
    load_registry ⟨none⟩ = [] ∧
      dget (load_registry ⟨none⟩) "cpu_throttling" = none := by
  exact ⟨(C10_missing_templates_key ⟨none⟩ rfl).1,
    (C10_missing_templates_key ⟨none⟩ rfl).2 "cpu_throttling"⟩

end FaultOrch
